import Mathlib

/-!
Verification development for the periodic dataset-refresh pipeline in
`src/scripts/download_airports.py` (download, filter, publish, schedule).

Modelling conventions.  The CSV payload is embedded at the level the script
manipulates it: `csv.DictReader` yields an optional header (`fieldnames`,
which is `None` for an empty file) together with a list of records, each an
association list from field name to value (a `dict` in insertion order).
The record-level computation of `filter_csv` is `filter_csv_core` below.
At the filesystem level, file contents are opaque strings and the directory
tree is an association list from path to content; the pure
parse-filter-serialise composite of `filter_csv` is abstracted as a
`String → Option String` parameter (`transform`), since CSV (de)serialisation
is an external collaborator per the spec, while the I/O skeleton (which file
is opened, truncated, written, deleted, and in which order) is modelled
exactly from the source.  Failure injection points (network errors, partial
writes) are supplied as explicit outcome values.
-/

/-- A parsed CSV record, as `csv.DictReader` presents one row: an ordered
mapping from field name to string value. -/
abbrev Row := List (String × String)

/-- Python `row.get(key, dflt)`: the value bound to `key`, or `dflt` when
the key is absent. -/
def rowGet (row : Row) (key dflt : String) : String :=
  match List.lookup key row with
  | some v => v
  | none => dflt

/-- Whitespace characters recognised by Python `str.strip()` (ASCII range). -/
def isPySpace (c : Char) : Bool :=
  c == ' ' || c == '\t' || c == '\n' || c == '\r' || c == '\x0B' || c == '\x0C'

/-- Python `str.strip()`: remove leading and trailing whitespace. -/
def pyStrip (s : String) : String :=
  String.mk (((s.data.dropWhile isPySpace).reverse.dropWhile isPySpace).reverse)

/-- Columns excluded from the output, from line 81 of
`download_airports.py`: `columns_to_remove = {'id', 'home_link',
'wikipedia_link', 'keywords'}`. -/
def columns_to_remove : List String :=
  ["id", "home_link", "wikipedia_link", "keywords"]

/-- Output header computed at line 95: the raw header with the removed
columns deleted, remaining fields in original order:
`[f for f in fieldnames if f not in columns_to_remove]`. -/
def output_fieldnames (fieldnames : List String) : List String :=
  fieldnames.filter (fun f => !(columns_to_remove.contains f))

/-- Selection test of lines 100-103: keep a record iff
`row.get('iso_country', '').strip() == 'US'` and
`row.get('icao_code', '').strip()` is non-empty. -/
def keepRow (row : Row) : Bool :=
  pyStrip (rowGet row "iso_country" "") == "US" &&
    pyStrip (rowGet row "icao_code" "") != ""

/-- Column projection of line 105:
`{k: v for k, v in row.items() if k not in columns_to_remove}`,
which preserves the insertion order of the surviving fields. -/
def projectRow (row : Row) : Row :=
  row.filter (fun kv => !(columns_to_remove.contains kv.1))

/-- The records accumulated into `filtered_data` by the loop of lines
97-107, before column projection: the raw records passing `keepRow`,
in original order. -/
def keptRows (rows : List Row) : List Row :=
  rows.filter keepRow

/-- A parsed CSV file exactly as `csv.DictReader` presents it:
`fieldnames` is `none` when the file is empty (`reader.fieldnames is
None`), `some []` when the first line of the file is blank, and the
data records follow. -/
structure CsvFile where
  fieldnames : Option (List String)
  rows : List Row

/-- Record-level core of `filter_csv` (lines 86-113): `none` models the
`return False` at line 92 (no output file is produced); otherwise the
result is the written header (`writer.writeheader()`, line 112) paired
with the written records (`writer.writerows(filtered_data)`, line 113). -/
def filter_csv_core (csv : CsvFile) : Option (List String × List Row) :=
  match csv.fieldnames with
  | none => none
  | some fns => some (output_fieldnames fns, (keptRows csv.rows).map projectRow)

/-- Python `PurePath.with_suffix`: strip the last dot-suffix of the final
path component (a lone leading dot is not a suffix; a name with no dot has
no suffix) and append `suf`. -/
def withSuffix (p suf : String) : String :=
  let rev := p.data.reverse
  let nameRev := rev.takeWhile (fun c => c != '/')
  let dirRev := rev.dropWhile (fun c => c != '/')
  let dotted := nameRev.dropWhile (fun c => c != '.')
  let stemRev := if dotted.drop 1 = [] then nameRev else dotted.drop 1
  String.mk (dirRev.reverse ++ stemRev.reverse ++ suf.data)

/-- Staging path computed by `run_once` at line 137:
`temp_path = output_path.with_suffix('.tmp.csv')`. -/
def tempPath (output_path : String) : String :=
  withSuffix output_path ".tmp.csv"

/-- Staging path used by one pipeline run.  Line 137 derives it from the
output path alone; `run_id`, the per-run identity posited by the spec for
simultaneous instances, has no influence on it. -/
def staging_path_of_run (run_id : Nat) (output_path : String) : String :=
  tempPath output_path

/-- The directory tree as the script touches it: an association list from
path to file content. -/
abbrev FS := List (String × String)

/-- Content of the file at path `p`, or `none` when no such file exists. -/
def fsRead (fs : FS) (p : String) : Option String :=
  match fs with
  | [] => none
  | (k, v) :: rest => if p = k then some v else fsRead rest p

/-- Remove the file at path `p` (`Path.unlink`). -/
def fsDelete (fs : FS) (p : String) : FS :=
  match fs with
  | [] => []
  | (k, v) :: rest => if k = p then fsDelete rest p else (k, v) :: fsDelete rest p

/-- Create or truncate-and-overwrite the file at path `p` with content `c`
(`open(p, 'w')` followed by a complete write). -/
def fsWrite (fs : FS) (p c : String) : FS :=
  (p, c) :: fsDelete fs p

/-- Python `Path.exists()`. -/
def fsExists (fs : FS) (p : String) : Bool :=
  (fsRead fs p).isSome

/-- Possible outcomes of one `download_file` call (lines 22-62): the full
byte stream is persisted; the request or status check fails before the
destination file is opened; or an exception interrupts the chunk loop
after `written` bytes have been persisted (the partial file remains,
since `download_file` has no cleanup in its handlers). -/
inductive FetchOutcome
  | ok (content : String)
  | failBeforeWrite
  | failDuringWrite (written : String)

/-- Fate of the output-writing phase of `filter_csv` (lines 110-113): the
write completes; opening the output file fails (the previous content is
untouched); or an exception interrupts the write after `chars` characters,
leaving the output truncated to that much of the new content (the file was
opened with mode `'w'`, which truncates first). -/
inductive WriteOutcome
  | ok
  | failBeforeOpen
  | failAfter (chars : Nat)

/-- File-level model of `download_file` (lines 22-62): on success the full
content is written to `output_path`; on an early failure nothing is
touched; on a mid-stream failure the partial bytes remain.  The function
returns whether the download succeeded, and never raises past its boundary
(all exceptions are caught at lines 57-62).  Directory creation (line 38)
is a no-op in this flat-namespace model. -/
def download_file (fo : FetchOutcome) (fs : FS) (output_path : String) : FS × Bool :=
  match fo with
  | FetchOutcome.ok content => (fsWrite fs output_path content, true)
  | FetchOutcome.failBeforeWrite => (fs, false)
  | FetchOutcome.failDuringWrite written => (fsWrite fs output_path written, false)

/-- File-level model of `filter_csv` (lines 65-123).  The input file is
read first (lines 86-107); a missing input or a `transform` failure (which
covers the missing-header `return False` of line 92 and any read error)
leaves the filesystem untouched.  Only then is the output file opened with
mode `'w'` and written in place (lines 110-113) — there is no staging or
atomic-replace step for the output — so a failure injected during the
write leaves the output truncated to a strict portion of the new content.
All exceptions are caught at lines 121-123 and reported as `false`. -/
def filter_csv_run (transform : String → Option String) (wo : WriteOutcome)
    (fs : FS) (input_path output_path : String) : FS × Bool :=
  match fsRead fs input_path with
  | none => (fs, false)
  | some content =>
    match transform content with
    | none => (fs, false)
    | some result =>
      match wo with
      | WriteOutcome.ok => (fsWrite fs output_path result, true)
      | WriteOutcome.failBeforeOpen => (fs, false)
      | WriteOutcome.failAfter k =>
          (fsWrite fs output_path (String.mk (result.data.take k)), false)

/-- Model of `run_once` (lines 126-153): download to the staging path; on
download failure return `false` immediately (no cleanup, lines 139-140);
otherwise filter from the staging path directly onto the output path, and
on both the filter-failure branch (lines 143-147) and the success branch
(lines 149-153) remove the staging file if it exists before returning. -/
def run_once (transform : String → Option String) (fo : FetchOutcome)
    (wo : WriteOutcome) (fs : FS) (output_path : String) : FS × Bool :=
  let temp_path := tempPath output_path
  match download_file fo fs temp_path with
  | (fs1, false) => (fs1, false)
  | (fs1, true) =>
    match filter_csv_run transform wo fs1 temp_path output_path with
    | (fs2, succeeded) =>
      ((if fsExists fs2 temp_path then fsDelete fs2 temp_path else fs2), succeeded)

/-- Observable scheduler events of `run_continuously`. -/
inductive SchedEvent
  | cycleRun (succeeded : Bool)
  | sleepFor (seconds : Nat)

/-- Model of `run_continuously` (lines 156-183): one cycle immediately
(line 174), then each loop iteration sleeps `interval_seconds =
interval_hours * 3600` (computed once at line 164; the source takes a
float, modelled here as `Nat`) and runs the next cycle (lines 178-180).
The Boolean result of `run_once` is recorded in the event trace and
otherwise ignored by the loop, exactly as in the source.  The `Nat` index
counts loop iterations, so index `n` yields `n + 1` cycles.  Per-cycle
failure injections are supplied by the `fetches` and `writes` streams. -/
def run_continuously (transform : String → Option String)
    (fetches : Nat → FetchOutcome) (writes : Nat → WriteOutcome)
    (output_path : String) (interval_hours : Nat) (fs : FS) :
    Nat → FS × List SchedEvent
  | 0 =>
    let r := run_once transform (fetches 0) (writes 0) fs output_path
    (r.1, [SchedEvent.cycleRun r.2])
  | n + 1 =>
    let prev := run_continuously transform fetches writes output_path interval_hours fs n
    let r := run_once transform (fetches (n + 1)) (writes (n + 1)) prev.1 output_path
    (r.1, prev.2 ++ [SchedEvent.sleepFor (interval_hours * 3600),
                     SchedEvent.cycleRun r.2])

/-! ### Filesystem lemmas -/

/-- Reading after a delete: the deleted path is gone, others unchanged. -/
theorem fsRead_fsDelete (fs : FS) (p q : String) :
    fsRead (fsDelete fs p) q = if q = p then none else fsRead fs q := by
  induction fs with
  | nil => simp [fsDelete, fsRead]
  | cons kv rest ih =>
    obtain ⟨k, v⟩ := kv
    by_cases hkp : k = p <;> by_cases hqk : q = k <;> by_cases hqp : q = p <;>
      simp_all [fsDelete, fsRead]

/-- Reading after a write: the written path has the new content, others
are unchanged. -/
theorem fsRead_fsWrite (fs : FS) (p q c : String) :
    fsRead (fsWrite fs p c) q = if q = p then some c else fsRead fs q := by
  by_cases h : q = p <;> simp [fsWrite, fsRead, h, fsRead_fsDelete]

/-! ### Record-level claims about `filter_csv` -/

/-- C2: a raw record is kept by the `filter_csv` selection loop iff its
`iso_country` field trims to `"US"` and its `icao_code` field is non-empty
after trimming — no record matching both conditions is dropped and no
record failing either condition is kept (the rows written at line 113 are
exactly `(keptRows rows).map projectRow`, in `filter_csv_core`). -/
theorem keptRows_mem_iff (rows : List Row) (r : Row) :
    r ∈ keptRows rows ↔
      r ∈ rows ∧ pyStrip (rowGet r "iso_country" "") = "US" ∧
        pyStrip (rowGet r "icao_code" "") ≠ "" := by
  simp [keptRows, List.mem_filter, keepRow]

/-- C3: for every raw input with a (non-empty) header, the header written
by `filter_csv` is the original header with exactly the removal-set fields
deleted, the remaining fields in original relative order; and on the
spec's example header the output is exactly
`[name, iso_country, icao_code]`. -/
theorem output_header_projection :
    (∀ (csv : CsvFile) (fns : List String), csv.fieldnames = some fns → fns ≠ [] →
      filter_csv_core csv
          = some (output_fieldnames fns, (keptRows csv.rows).map projectRow) ∧
        List.Sublist (output_fieldnames fns) fns ∧
        (∀ f, f ∈ output_fieldnames fns ↔ (f ∈ fns ∧ ¬ f ∈ columns_to_remove))) ∧
    output_fieldnames ["id", "name", "iso_country", "icao_code", "home_link"]
      = ["name", "iso_country", "icao_code"] := by
  constructor
  · intro csv fns hf _
    refine ⟨by simp [filter_csv_core, hf], List.filter_sublist fns, ?_⟩
    intro f
    simp [output_fieldnames, List.mem_filter, List.contains]
  · rfl

/-- C3 witness: the projection facts instantiated on the example header. -/
theorem output_header_projection_witness :
    filter_csv_core ⟨some ["id", "name", "iso_country", "icao_code", "home_link"], []⟩
        = some (output_fieldnames ["id", "name", "iso_country", "icao_code", "home_link"],
                (keptRows ([] : List Row)).map projectRow) ∧
      List.Sublist
        (output_fieldnames ["id", "name", "iso_country", "icao_code", "home_link"])
        ["id", "name", "iso_country", "icao_code", "home_link"] ∧
      (∀ f, f ∈ output_fieldnames ["id", "name", "iso_country", "icao_code", "home_link"] ↔
        (f ∈ ["id", "name", "iso_country", "icao_code", "home_link"] ∧
          ¬ f ∈ columns_to_remove)) :=
  output_header_projection.1
    ⟨some ["id", "name", "iso_country", "icao_code", "home_link"], []⟩
    ["id", "name", "iso_country", "icao_code", "home_link"] rfl (by simp)

/-- C4: among records passing the selection rule, `filter_csv` preserves
the original input order (the kept rows form a sublist of the raw rows,
and the written rows are their projections in the same order); on the
spec's example `[A(US,K1), B(FR,K2), C(US,"")]` the result is exactly
`[A]`. -/
theorem filter_preserves_row_order :
    (∀ rows : List Row, List.Sublist (keptRows rows) rows) ∧
    keptRows [[("iso_country", "US"), ("icao_code", "K1")],
              [("iso_country", "FR"), ("icao_code", "K2")],
              [("iso_country", "US"), ("icao_code", "")]]
      = [[("iso_country", "US"), ("icao_code", "K1")]] ∧
    filter_csv_core ⟨some ["iso_country", "icao_code"],
        [[("iso_country", "US"), ("icao_code", "K1")],
         [("iso_country", "FR"), ("icao_code", "K2")],
         [("iso_country", "US"), ("icao_code", "")]]⟩
      = some (["iso_country", "icao_code"],
              [[("iso_country", "US"), ("icao_code", "K1")]]) :=
  ⟨fun rows => List.filter_sublist rows, by decide, by decide⟩

/-- C7 counterexample: a raw file whose header row is present but empty
(`fieldnames = some []`, produced by a blank first line) is NOT rejected:
`filter_csv` proceeds and succeeds, writing an output with an empty
header, instead of failing as the claim states. -/
theorem empty_header_not_rejected :
    filter_csv_core ⟨some [], [[]]⟩ = some ([], []) ∧
      filter_csv_core ⟨some [], [[]]⟩ ≠ none := by
  constructor
  · rfl
  · simp [filter_csv_core]

/-- C7 amended: `filter_csv` fails without producing an output file iff
the header is missing (`reader.fieldnames is None`, i.e. the raw file is
empty); an empty header row is not rejected.  The failure is reported as
the same `False` return every other cycle failure uses. -/
theorem filter_csv_core_fails_iff_header_missing (csv : CsvFile) :
    filter_csv_core csv = none ↔ csv.fieldnames = none := by
  obtain ⟨fns, rows⟩ := csv
  cases fns <;> simp [filter_csv_core]

/-- C10: a record lacking the `iso_country` or `icao_code` key entirely is
handled without error — `row.get` yields the empty-string default — and
the record is excluded from the filtered output. -/
theorem missing_field_defaults_empty_and_excluded (r : Row) (rows : List Row)
    (h : List.lookup "iso_country" r = none ∨ List.lookup "icao_code" r = none) :
    (List.lookup "iso_country" r = none → rowGet r "iso_country" "" = "") ∧
    (List.lookup "icao_code" r = none → rowGet r "icao_code" "" = "") ∧
    keepRow r = false ∧ ¬ r ∈ keptRows rows := by
  have hkeep : keepRow r = false := by
    cases h with
    | inl hc =>
      have hg : rowGet r "iso_country" "" = "" := by simp [rowGet, hc]
      have h0 : (pyStrip "" == "US") = false := rfl
      simp [keepRow, hg, h0]
    | inr hi =>
      have hg : rowGet r "icao_code" "" = "" := by simp [rowGet, hi]
      have h0 : (pyStrip "" != "") = false := rfl
      simp [keepRow, hg, h0]
  refine ⟨fun hc => by simp [rowGet, hc], fun hi => by simp [rowGet, hi], hkeep, ?_⟩
  simp [keptRows, List.mem_filter, hkeep]

/-- C10 witness: a record carrying only `iso_country` (no `icao_code` key)
is excluded without error. -/
theorem missing_field_defaults_empty_and_excluded_witness :
    (List.lookup "iso_country" ([("iso_country", "US")] : Row) = none →
      rowGet [("iso_country", "US")] "iso_country" "" = "") ∧
    (List.lookup "icao_code" ([("iso_country", "US")] : Row) = none →
      rowGet [("iso_country", "US")] "icao_code" "" = "") ∧
    keepRow [("iso_country", "US")] = false ∧
    ¬ [("iso_country", "US")] ∈ keptRows [[("iso_country", "US")]] :=
  missing_field_defaults_empty_and_excluded
    [("iso_country", "US")] [[("iso_country", "US")]] (Or.inr rfl)

/-! ### Staging-path claims -/

/-- C9 counterexample: the staging path carries no random or
process-specific component — two distinct simultaneous runs with the same
output path get the very same staging file. -/
theorem staging_path_shared_between_runs :
    staging_path_of_run 0 "data/airports.csv"
        = staging_path_of_run 1 "data/airports.csv" ∧
      staging_path_of_run 0 "data/airports.csv" = "data/airports.tmp.csv" :=
  ⟨rfl, rfl⟩

/-- C9 amended: the staging path is a deterministic function of the output
path alone (`with_suffix('.tmp.csv')`, line 137), identical for every run;
pipeline instances sharing an output path share the staging file. -/
theorem staging_path_run_independent :
    ∀ (run1 run2 : Nat) (output_path : String),
      staging_path_of_run run1 output_path = staging_path_of_run run2 output_path :=
  fun _ _ _ => rfl

/-! ### Cycle-level claims about `run_once` -/

/-- C1 counterexample: with a prior published file `"OLD"`, a successful
fetch and filter computation, and a failure injected during the output
write (after staging, while the in-place publish write is under way), the
cycle fails yet the published file ends up holding `"N"` — a strict
portion of the new content — rather than its prior content `"OLD"`;
`filter_csv` writes the published path in place and there is no final
replace step. -/
theorem midwrite_failure_clobbers_published :
    (run_once (fun _ => some "NEW") (FetchOutcome.ok "RAW") (WriteOutcome.failAfter 1)
        [("data/airports.csv", "OLD")] "data/airports.csv").2 = false ∧
    fsRead (run_once (fun _ => some "NEW") (FetchOutcome.ok "RAW") (WriteOutcome.failAfter 1)
        [("data/airports.csv", "OLD")] "data/airports.csv").1 "data/airports.csv"
      = some "N" ∧
    fsRead [("data/airports.csv", "OLD")] "data/airports.csv" = some "OLD" ∧
    (some "N" : Option String) ≠ some "OLD" :=
  ⟨rfl, rfl, rfl, by decide⟩

/-- C1 amended: every failure that strikes in the fetch, or in the filter
before the output file is opened (missing input, missing header, failed
open), leaves the previously published file byte-for-byte unchanged; a
failure during the output write itself is excluded, because `filter_csv`
overwrites the published path in place rather than staging and atomically
replacing it. -/
theorem run_once_failure_outside_write_preserves_published
    (transform : String → Option String) (fo : FetchOutcome) (wo : WriteOutcome)
    (fs : FS) (output_path : String)
    (hpath : tempPath output_path ≠ output_path)
    (hwo : ∀ k, wo ≠ WriteOutcome.failAfter k)
    (hfail : (run_once transform fo wo fs output_path).2 = false) :
    fsRead (run_once transform fo wo fs output_path).1 output_path
      = fsRead fs output_path := by
  cases fo with
  | failBeforeWrite => simp [run_once, download_file]
  | failDuringWrite w =>
    simp [run_once, download_file, fsRead_fsWrite, Ne.symm hpath]
  | ok content =>
    cases wo with
    | failAfter k => exact absurd rfl (hwo k)
    | ok =>
      cases ht : transform content with
      | none =>
        simp [run_once, download_file, filter_csv_run, fsRead_fsWrite, ht, fsExists,
          fsRead_fsDelete, Ne.symm hpath]
      | some res =>
        simp [run_once, download_file, filter_csv_run, fsRead_fsWrite, ht, fsExists,
          fsRead_fsDelete] at hfail
    | failBeforeOpen =>
      cases ht : transform content with
      | none =>
        simp [run_once, download_file, filter_csv_run, fsRead_fsWrite, ht, fsExists,
          fsRead_fsDelete, Ne.symm hpath]
      | some res =>
        simp [run_once, download_file, filter_csv_run, fsRead_fsWrite, ht, fsExists,
          fsRead_fsDelete, Ne.symm hpath]

/-- C1 witness: a fetch failure on a concrete filesystem leaves the
published file unchanged. -/
theorem run_once_failure_outside_write_preserves_published_witness :
    fsRead (run_once (fun _ => some "NEW") FetchOutcome.failBeforeWrite WriteOutcome.ok
        [("data/airports.csv", "OLD")] "data/airports.csv").1 "data/airports.csv"
      = fsRead [("data/airports.csv", "OLD")] "data/airports.csv" :=
  run_once_failure_outside_write_preserves_published (fun _ => some "NEW")
    FetchOutcome.failBeforeWrite WriteOutcome.ok [("data/airports.csv", "OLD")]
    "data/airports.csv" (by decide) (fun k h => nomatch h) rfl

/-- C5 counterexample: a fetch that fails after persisting partial bytes
returns from `run_once` without any cleanup (lines 139-140), so the
partial staging artifact is still present after the failed cycle. -/
theorem fetch_failure_leaves_temp_artifact :
    (run_once (fun s => some s) (FetchOutcome.failDuringWrite "PART") WriteOutcome.ok
        [] "data/airports.csv").2 = false ∧
    fsRead (run_once (fun s => some s) (FetchOutcome.failDuringWrite "PART") WriteOutcome.ok
        [] "data/airports.csv").1 (tempPath "data/airports.csv") = some "PART" :=
  ⟨rfl, rfl⟩

/-- C5 amended: whenever the fetch succeeds — whether the filter then
succeeds or fails in any way — the staging temp file no longer exists
after the `run_once` cycle; the fetch-failure path performs no cleanup. -/
theorem run_once_fetch_ok_removes_temp
    (transform : String → Option String) (wo : WriteOutcome)
    (fs : FS) (output_path content : String)
    (hpath : tempPath output_path ≠ output_path) :
    fsRead (run_once transform (FetchOutcome.ok content) wo fs output_path).1
      (tempPath output_path) = none := by
  cases ht : transform content with
  | none =>
    simp [run_once, download_file, filter_csv_run, fsRead_fsWrite, ht, fsExists,
      fsRead_fsDelete]
  | some res =>
    cases wo with
    | ok =>
      simp [run_once, download_file, filter_csv_run, fsRead_fsWrite, ht, fsExists,
        fsRead_fsDelete, hpath]
    | failBeforeOpen =>
      simp [run_once, download_file, filter_csv_run, fsRead_fsWrite, ht, fsExists,
        fsRead_fsDelete]
    | failAfter k =>
      simp [run_once, download_file, filter_csv_run, fsRead_fsWrite, ht, fsExists,
        fsRead_fsDelete, hpath]

/-- C5 witness: a concrete successful-fetch, failing-filter cycle leaves
no staging file. -/
theorem run_once_fetch_ok_removes_temp_witness :
    fsRead (run_once (fun _ => none) (FetchOutcome.ok "RAWDATA") WriteOutcome.ok
        [] "data/airports.csv").1 (tempPath "data/airports.csv") = none :=
  run_once_fetch_ok_removes_temp (fun _ => none) WriteOutcome.ok [] "data/airports.csv"
    "RAWDATA" (by decide)

/-- C8: the pipeline is idempotent — with the raw source content fixed and
no injected write failure, running `run_once` a second time leaves the
published file with byte-identical content to the first run (and the same
success status), whatever the initial filesystem. -/
theorem run_once_idempotent
    (transform : String → Option String) (content : String) (fs : FS)
    (output_path : String) (hpath : tempPath output_path ≠ output_path) :
    fsRead (run_once transform (FetchOutcome.ok content) WriteOutcome.ok
        (run_once transform (FetchOutcome.ok content) WriteOutcome.ok fs output_path).1
        output_path).1 output_path
      = fsRead (run_once transform (FetchOutcome.ok content) WriteOutcome.ok
          fs output_path).1 output_path ∧
    (run_once transform (FetchOutcome.ok content) WriteOutcome.ok
        (run_once transform (FetchOutcome.ok content) WriteOutcome.ok fs output_path).1
        output_path).2
      = (run_once transform (FetchOutcome.ok content) WriteOutcome.ok fs output_path).2 := by
  cases ht : transform content with
  | none =>
    constructor <;>
      simp [run_once, download_file, filter_csv_run, fsRead_fsWrite, ht, fsExists,
        fsRead_fsDelete, Ne.symm hpath]
  | some res =>
    constructor <;>
      simp [run_once, download_file, filter_csv_run, fsRead_fsWrite, ht, fsExists,
        fsRead_fsDelete, hpath, Ne.symm hpath]

/-- C8 witness: two identity-transform runs from an empty filesystem agree
on the published content and status. -/
theorem run_once_idempotent_witness :
    fsRead (run_once (fun s => some s) (FetchOutcome.ok "RAW") WriteOutcome.ok
        (run_once (fun s => some s) (FetchOutcome.ok "RAW") WriteOutcome.ok []
          "data/airports.csv").1 "data/airports.csv").1 "data/airports.csv"
      = fsRead (run_once (fun s => some s) (FetchOutcome.ok "RAW") WriteOutcome.ok []
          "data/airports.csv").1 "data/airports.csv" ∧
    (run_once (fun s => some s) (FetchOutcome.ok "RAW") WriteOutcome.ok
        (run_once (fun s => some s) (FetchOutcome.ok "RAW") WriteOutcome.ok []
          "data/airports.csv").1 "data/airports.csv").2
      = (run_once (fun s => some s) (FetchOutcome.ok "RAW") WriteOutcome.ok []
          "data/airports.csv").2 :=
  run_once_idempotent (fun s => some s) "RAW" [] "data/airports.csv" (by decide)

/-! ### Scheduler claims -/

/-- C6: in continuous mode the scheduler runs one cycle immediately (event
index 0), and for every subsequent iteration sleeps exactly the fixed
interval once (odd indices) before attempting the next cycle (even
indices).  The statement holds for every stream of per-cycle fetch and
write outcomes — in particular an all-failing stream — so a failed cycle
never terminates the loop and is not retried before the next interval
boundary. -/
theorem run_continuously_failure_isolation
    (transform : String → Option String) (fetches : Nat → FetchOutcome)
    (writes : Nat → WriteOutcome) (output_path : String) (interval_hours : Nat)
    (fs : FS) (n : Nat) :
    (run_continuously transform fetches writes output_path interval_hours fs n).2.length
        = 2 * n + 1 ∧
    (∀ k, k ≤ n → ∃ b,
      (run_continuously transform fetches writes output_path interval_hours fs n).2[2 * k]?
        = some (SchedEvent.cycleRun b)) ∧
    (∀ k, k < n →
      (run_continuously transform fetches writes output_path interval_hours fs n).2[2 * k + 1]?
        = some (SchedEvent.sleepFor (interval_hours * 3600))) := by
  induction n with
  | zero =>
    refine ⟨rfl, ?_, ?_⟩
    · intro k hk
      have hk0 : k = 0 := Nat.le_zero.mp hk
      subst hk0
      exact ⟨(run_once transform (fetches 0) (writes 0) fs output_path).2, rfl⟩
    · intro k hk
      exact absurd hk (Nat.not_lt_zero k)
  | succ n ih =>
    obtain ⟨ihlen, ihcyc, ihslp⟩ := ih
    have hunfold :
        (run_continuously transform fetches writes output_path interval_hours fs (n + 1)).2
          = (run_continuously transform fetches writes output_path interval_hours fs n).2
            ++ [SchedEvent.sleepFor (interval_hours * 3600),
                SchedEvent.cycleRun (run_once transform (fetches (n + 1)) (writes (n + 1))
                  (run_continuously transform fetches writes output_path interval_hours
                    fs n).1 output_path).2] := rfl
    refine ⟨?_, ?_, ?_⟩
    · rw [hunfold, List.length_append, ihlen]
      simp only [List.length_cons, List.length_nil]
      omega
    · intro k hk
      rw [hunfold]
      by_cases hkn : k ≤ n
      · obtain ⟨b, hb⟩ := ihcyc k hkn
        have hlt : 2 * k <
            (run_continuously transform fetches writes output_path interval_hours
              fs n).2.length := by
          rw [ihlen]; omega
        exact ⟨b, by rw [List.getElem?_append, if_pos hlt]; exact hb⟩
      · have hge : ¬ (2 * k <
            (run_continuously transform fetches writes output_path interval_hours
              fs n).2.length) := by
          rw [ihlen]; omega
        have hidx : 2 * k -
            (run_continuously transform fetches writes output_path interval_hours
              fs n).2.length = 1 := by
          rw [ihlen]; omega
        refine ⟨(run_once transform (fetches (n + 1)) (writes (n + 1))
          (run_continuously transform fetches writes output_path interval_hours
            fs n).1 output_path).2, ?_⟩
        rw [List.getElem?_append, if_neg hge, hidx]
        rfl
    · intro k hk
      rw [hunfold]
      by_cases hkn : k < n
      · have hlt : 2 * k + 1 <
            (run_continuously transform fetches writes output_path interval_hours
              fs n).2.length := by
          rw [ihlen]; omega
        rw [List.getElem?_append, if_pos hlt]
        exact ihslp k hkn
      · have hge : ¬ (2 * k + 1 <
            (run_continuously transform fetches writes output_path interval_hours
              fs n).2.length) := by
          rw [ihlen]; omega
        have hidx : 2 * k + 1 -
            (run_continuously transform fetches writes output_path interval_hours
              fs n).2.length = 0 := by
          rw [ihlen]; omega
        rw [List.getElem?_append, if_neg hge, hidx]
        rfl

/-- C6 witness: with every fetch failing, after two loop iterations the
trace still attempts cycle 2 at index 4, with the single fixed-interval
sleep at index 3. -/
theorem run_continuously_failure_isolation_witness :
    (∃ b, (run_continuously (fun _ => none) (fun _ => FetchOutcome.failBeforeWrite)
        (fun _ => WriteOutcome.ok) "data/airports.csv" 24 [] 2).2[2 * 2]?
      = some (SchedEvent.cycleRun b)) ∧
    (run_continuously (fun _ => none) (fun _ => FetchOutcome.failBeforeWrite)
        (fun _ => WriteOutcome.ok) "data/airports.csv" 24 [] 2).2[2 * 1 + 1]?
      = some (SchedEvent.sleepFor (24 * 3600)) :=
  ⟨(run_continuously_failure_isolation (fun _ => none)
      (fun _ => FetchOutcome.failBeforeWrite) (fun _ => WriteOutcome.ok)
      "data/airports.csv" 24 [] 2).2.1 2 (by decide),
   (run_continuously_failure_isolation (fun _ => none)
      (fun _ => FetchOutcome.failBeforeWrite) (fun _ => WriteOutcome.ok)
      "data/airports.csv" 24 [] 2).2.2 1 (by decide)⟩
